import Mathlib

/-!
Verification of the Polar H10 heart-rate telemetry pipeline.

The development shallowly embeds three parts of the code base:

* the Pub/Sub consumer `Command.message_callback` from
  `polarh10-backend/heartrate/management/commands/subscribe_hr.py`,
* the read-only query views `HeartRateViewSet.get_queryset`,
  `HeartRateViewSet.latest` and `HeartRateViewSet.stats` from
  `polarh10-backend/heartrate/views.py`,
* the test-mode data generator `generate_random_hr_data` / `run_test_mode`
  from `polarh10-producer/hr_callbacl.py`.

Python's dynamically typed values (as produced by `json.loads`) are embedded
as the inductive type `PyVal`; the effectful consumer callback is embedded as
a pure function returning the classification of the message together with the
ordered trace of the observable actions it performs (database save, ack, nack).
-/

namespace PolarH10

/-- A Python value as produced by `json.loads`: `None`, booleans, ints,
strings, lists and dicts.  JSON `null` decodes to Python `None`, so a single
constructor `none` covers both a JSON null field and an absent field looked
up with `dict.get` (which also returns `None`). -/
inductive PyVal where
  | none
  | bool (b : Bool)
  | int (n : Int)
  | str (s : String)
  | list (xs : List PyVal)
  | dict (fields : List (String × PyVal))

/-- `d.get(key)` on a Python dict: the bound value, or `None` when the key is
absent.  (Models `data.get('...')` in `message_callback`.) -/
def dictGet : List (String × PyVal) → String → PyVal
  | [], _ => .none
  | (k, v) :: rest, key => if k == key then v else dictGet rest key

/-- Python truthiness of a value, as used by `rr_interval or 0` and by
`rr_interval[0] if rr_interval else 0` in `message_callback`. -/
def pyTruthy : PyVal → Bool
  | .none => false
  | .bool b => b
  | .int n => n != 0
  | .str s => s != ""
  | .list xs => !xs.isEmpty
  | .dict fs => !fs.isEmpty

/-- `data.get('type') != 'HR'` (negated): the value is the string `"HR"`. -/
def isHRType : PyVal → Bool
  | .str s => s == "HR"
  | _ => false

/-- `x is None` in Python. -/
def isNone : PyVal → Bool
  | .none => true
  | _ => false

/-- Whether a Python value is a dict.  Calling `.get` on a non-dict raises
`AttributeError`. -/
def isDict : PyVal → Bool
  | .dict _ => true
  | _ => false

/-- The three possible outcomes of `message.data.decode('utf-8')` followed by
`json.loads`: the bytes are not valid UTF-8 (raises `UnicodeDecodeError`),
they are valid UTF-8 but not valid JSON (raises `json.JSONDecodeError`), or
they decode to a Python value. -/
inductive Payload where
  | invalidUtf8
  | notJson
  | val (v : PyVal)

/-- The field set passed to `HeartRateReading.objects.create` by the
consumer. -/
structure Record where
  sensor_timestamp : PyVal
  bpm : PyVal
  rr_interval : PyVal
  energy : PyVal

/-- Observable consumer actions, in the order they are performed:
a successful database create, a failed database create, `message.ack()`
and `message.nack()`. -/
inductive Action where
  | saveOk (r : Record)
  | saveFail
  | ack
  | nack

/-- Classification of a processed message, one per exit path of
`message_callback`. -/
inductive MsgClass where
  | unicodeError
  | decodeError
  | attrError
  | ignored
  | validationError
  | saved (r : Record)
  | saveFailed

/-- Lines 177-179 of `subscribe_hr.py`:
`if isinstance(rr_interval, list): rr_interval = rr_interval[0] if rr_interval else 0`. -/
def listNormalize (rr : PyVal) : PyVal :=
  match rr with
  | .list [] => .int 0
  | .list (x :: _) => x
  | v => v

/-- The record built on the success path of `message_callback`
(lines 171-195 of `subscribe_hr.py`): field extraction, the list
normalization of `rr_interval`, and the final `rr_interval or 0`. -/
def mkRecord (fs : List (String × PyVal)) : Record :=
  let rr := listNormalize (dictGet fs "rr_interval")
  { sensor_timestamp := dictGet fs "timestamp"
    bpm := dictGet fs "bpm"
    rr_interval := if pyTruthy rr then rr else .int 0
    energy := dictGet fs "energy" }

/-- `Command.message_callback` (lines 144-212 of `subscribe_hr.py`) as a pure
function of the decoded payload and of whether the database create succeeds.
Returns the classification and the ordered trace of observable actions:

* invalid UTF-8 bytes raise `UnicodeDecodeError`, which is NOT a
  `json.JSONDecodeError`, so the generic `except Exception` branch nacks;
* invalid JSON raises `json.JSONDecodeError`: ack;
* a non-dict JSON value makes `data.get('type')` raise `AttributeError`,
  caught by the generic branch: nack;
* `type != 'HR'`: ack and return;
* missing `timestamp` or `bpm` (i.e. `None`): ack and return;
* otherwise `HeartRateReading.objects.create` runs; on success the message is
  acked afterwards, on an exception the generic branch nacks. -/
def message_callback (p : Payload) (dbOk : Bool) : MsgClass × List Action :=
  match p with
  | .invalidUtf8 => (.unicodeError, [.nack])
  | .notJson => (.decodeError, [.ack])
  | .val data =>
    match data with
    | .dict fs =>
      if !isHRType (dictGet fs "type") then (.ignored, [.ack])
      else if isNone (dictGet fs "timestamp") || isNone (dictGet fs "bpm") then
        (.validationError, [.ack])
      else if dbOk then (.saved (mkRecord fs), [.saveOk (mkRecord fs), .ack])
      else (.saveFailed, [.saveFail, .nack])
    | _ => (.attrError, [.nack])

/-! ## Query service (`heartrate/views.py`) -/

/-- A persisted `HeartRateReading` row.  `created_at` is the server-assigned
timestamp, in seconds. -/
structure Reading where
  id : Nat
  sensor_timestamp : Int
  bpm : Int
  rr_interval : Int
  energy : Option ℚ
  created_at : Int
deriving DecidableEq

/-- `order_by('-created_at')`: descending on `created_at`. -/
def createdDesc (a b : Reading) : Prop := b.created_at ≤ a.created_at

instance : DecidableRel createdDesc := fun a b =>
  inferInstanceAs (Decidable (b.created_at ≤ a.created_at))

instance : IsTotal Reading createdDesc :=
  ⟨fun a b => (le_total b.created_at a.created_at).imp id id⟩

instance : IsTrans Reading createdDesc :=
  ⟨fun _ _ _ h h2 => le_trans h2 h⟩

/-- The `?minutes=` query parameter as seen by `get_queryset`:
absent (`query_params.get` returns `None`), the empty string (falsy, so the
`if minutes:` guard skips the filter), a non-numeric string (`int()` raises
`ValueError`, swallowed by `except ValueError: pass`), or a string parsing to
the integer `n`. -/
inductive MinutesParam where
  | absent
  | blank
  | nonNumeric
  | numeric (n : Int)

/-- `HeartRateViewSet.get_queryset` (lines 31-50 of `views.py`): optionally
filter to `created_at >= now - timedelta(minutes=n)` (here `now` and
`created_at` are in seconds, so the cutoff is `now - 60 * n`), then
`order_by('-created_at')`. -/
def get_queryset (store : List Reading) (now : Int) (p : MinutesParam) :
    List Reading :=
  let qs := match p with
    | .numeric n => store.filter (fun r => decide (now - 60 * n ≤ r.created_at))
    | _ => store
  List.insertionSort createdDesc qs

/-- Result of the `latest` endpoint: a serialized reading, or HTTP 404. -/
inductive LatestResult where
  | found (r : Reading)
  | notFound404
deriving DecidableEq

/-- `HeartRateViewSet.latest` (lines 52-66 of `views.py`):
`order_by('-created_at').first()`, 404 when the store is empty. -/
def latest (store : List Reading) : LatestResult :=
  match (List.insertionSort createdDesc store).head? with
  | some r => .found r
  | Option.none => .notFound404

/-- The aggregate row returned by the `stats` endpoint. -/
structure Aggregate where
  count : Nat
  avg_bpm : Option ℚ
  min_bpm : Option Int
  max_bpm : Option Int
  avg_rr_interval : Option ℚ
  time_range_start : Option Int
  time_range_end : Option Int
deriving DecidableEq

/-- The SQL aggregate of lines 87-95 of `views.py`: `Count('id')`,
`Avg`/`Min`/`Max` of `bpm`, `Avg` of `rr_interval`, `Min`/`Max` of
`created_at`.  SQL `AVG`, `MIN` and `MAX` are `NULL` over an empty set;
`COUNT` is 0. -/
def aggregate (qs : List Reading) : Aggregate where
  count := qs.length
  avg_bpm :=
    if qs.isEmpty then Option.none
    else some ((qs.map fun r => (r.bpm : ℚ)).sum / qs.length)
  min_bpm := (qs.map Reading.bpm).min?
  max_bpm := (qs.map Reading.bpm).max?
  avg_rr_interval :=
    if qs.isEmpty then Option.none
    else some ((qs.map fun r => (r.rr_interval : ℚ)).sum / qs.length)
  time_range_start := (qs.map Reading.created_at).min?
  time_range_end := (qs.map Reading.created_at).max?

/-- Python's `round` ties-to-even on an exact rational. -/
def roundHalfEven (q : ℚ) : ℤ :=
  if q - ⌊q⌋ < 1 / 2 then ⌊q⌋
  else if 1 / 2 < q - ⌊q⌋ then ⌊q⌋ + 1
  else if Even ⌊q⌋ then ⌊q⌋ else ⌊q⌋ + 1

/-- `round(q, 1)`: round to one decimal place. -/
def pyRound1 (q : ℚ) : ℚ := (roundHalfEven (10 * q) : ℚ) / 10

/-- `HeartRateViewSet.stats` (lines 68-104 of `views.py`): aggregate over
`self.get_queryset()` (the same window-filtered set as the list endpoint),
then round the two averages to one decimal place when they are truthy
(`if stats['avg_bpm']:` skips `None` and `0.0`; rounding `0.0` would be the
identity anyway). -/
def stats (store : List Reading) (now : Int) (p : MinutesParam) : Aggregate :=
  let s := aggregate (get_queryset store now p)
  { s with
    avg_bpm := match s.avg_bpm with
      | some q => if q = 0 then some q else some (pyRound1 q)
      | Option.none => Option.none
    avg_rr_interval := match s.avg_rr_interval with
      | some q => if q = 0 then some q else some (pyRound1 q)
      | Option.none => Option.none }

/-! ## Test-mode producer (`polarh10-producer/hr_callbacl.py`) -/

/-- The tuple `('HR', tstamp, (bpm, rr_interval), energy)` returned by
`generate_random_hr_data`. -/
structure HREvent where
  type : String
  timestamp : Int
  bpm : Nat
  rr_interval : Nat
  energy : Option ℚ
deriving DecidableEq

/-- Python's `random.randint(a, b)`: an integer drawn from the inclusive
range `[a, b]`, modelled as a function of an abstract draw `s` covering the
whole range. -/
def randint (a b : Nat) (s : Nat) : Nat := a + s % (b - a + 1)

/-- Python's `random.uniform(a, b)`: a value in `[a, b]`, modelled on a
discretized unit interval from an abstract draw `s`. -/
def uniformQ (a b : ℚ) (s : Nat) : ℚ := a + (b - a) * ((s % 1000 : ℕ) : ℚ) / 1000

/-- `generate_random_hr_data` (lines 155-175 of `hr_callbacl.py`):
timestamp is the wall-clock time in nanoseconds at generation,
`bpm = random.randint(100, 120)`, `rr_interval = random.randint(500, 900)`,
`energy = None`. -/
def generate_random_hr_data (nowNs : Int) (s1 s2 : Nat) : HREvent where
  type := "HR"
  timestamp := nowNs
  bpm := randint 100 120 s1
  rr_interval := randint 500 900 s2
  energy := Option.none

/-- The emission loop of `run_test_mode` (lines 204-209 of `hr_callbacl.py`)
unrolled for `k` iterations: each iteration generates an event stamped with
the wall clock at that iteration and then sleeps
`random.uniform(0.05, 0.2)` seconds.  `clock i` is the wall-clock reading
(ns) at iteration `i`; `seeds i` supplies the three random draws of
iteration `i`. -/
def run_test_mode (k : Nat) (clock : Nat → Int) (seeds : Nat → Nat × Nat × Nat) :
    List (HREvent × ℚ) :=
  (List.range k).map fun i =>
    (generate_random_hr_data (clock i) (seeds i).1 (seeds i).2.1,
     uniformQ (1 / 20) (1 / 5) (seeds i).2.2)

/-! ## Consumer theorems -/

/-- C1: for every inbound message that decodes to a JSON object with
`type = "HR"` and both `timestamp` and `bpm` present, the consumer performs
the database write first and acknowledges exactly once immediately after it
when it succeeds (never before it), and a failing write is the only path on
which it negative-acknowledges: the trace is `[saveOk r, ack]` on success and
`[saveFail, nack]` on persistence failure. -/
theorem consumer_ack_after_save_nack_only_on_db_failure
    (fs : List (String × PyVal)) (dbOk : Bool)
    (hty : isHRType (dictGet fs "type") = true)
    (hts : isNone (dictGet fs "timestamp") = false)
    (hbpm : isNone (dictGet fs "bpm") = false) :
    (dbOk = true →
      message_callback (.val (.dict fs)) dbOk
        = (.saved (mkRecord fs), [.saveOk (mkRecord fs), .ack]))
    ∧ (dbOk = false →
      message_callback (.val (.dict fs)) dbOk
        = (.saveFailed, [.saveFail, .nack])) := by
  refine ⟨fun h => ?_, fun h => ?_⟩ <;> subst h <;>
    simp [message_callback, hty, hts, hbpm]

/-- Witness for C1 at the end-to-end sample message of the spec. -/
theorem consumer_ack_after_save_nack_only_on_db_failure_witness :
    message_callback
        (.val (.dict [("type", .str "HR"),
          ("timestamp", .int 1766417260747938000), ("bpm", .int 119),
          ("rr_interval", .int 521), ("energy", .none)])) true
      = (.saved ⟨.int 1766417260747938000, .int 119, .int 521, .none⟩,
         [.saveOk ⟨.int 1766417260747938000, .int 119, .int 521, .none⟩,
          .ack]) := by
  have h := (consumer_ack_after_save_nack_only_on_db_failure
      [("type", .str "HR"), ("timestamp", .int 1766417260747938000),
       ("bpm", .int 119), ("rr_interval", .int 521), ("energy", .none)]
      true rfl rfl rfl).1 rfl
  simpa [mkRecord, dictGet, listNormalize, pyTruthy] using h

/-- C2: for every valid HR message, the persisted record's `rr_interval` is a
single scalar: the first element when the field is a non-empty list of
integers (so `[700, 650]` yields `700`), `0` when the list is empty, and `0`
when the field is missing or `null`, in which case no error is raised and the
record is still persisted. -/
theorem rr_interval_normalized_to_scalar
    (fs : List (String × PyVal))
    (hty : isHRType (dictGet fs "type") = true)
    (hts : isNone (dictGet fs "timestamp") = false)
    (hbpm : isNone (dictGet fs "bpm") = false) :
    (∀ (n : Int) (rest : List PyVal),
      dictGet fs "rr_interval" = .list (.int n :: rest) →
        (mkRecord fs).rr_interval = .int n)
    ∧ (dictGet fs "rr_interval" = .list [] →
        (mkRecord fs).rr_interval = .int 0)
    ∧ (dictGet fs "rr_interval" = .none →
        (mkRecord fs).rr_interval = .int 0)
    ∧ message_callback (.val (.dict fs)) true
        = (.saved (mkRecord fs), [.saveOk (mkRecord fs), .ack]) := by
  refine ⟨fun n rest h => ?_, fun h => ?_, fun h => ?_, ?_⟩
  · rcases eq_or_ne n 0 with hn | hn
    · subst hn; simp [mkRecord, h, listNormalize, pyTruthy]
    · simp [mkRecord, h, listNormalize, pyTruthy, hn]
  · simp [mkRecord, h, listNormalize, pyTruthy]
  · simp [mkRecord, h, listNormalize, pyTruthy]
  · simp [message_callback, hty, hts, hbpm]

/-- Witness for C2: `rr_interval: [700, 650]` persists the scalar `700`, and
an absent `rr_interval` persists `0`. -/
theorem rr_interval_normalized_to_scalar_witness :
    (mkRecord [("type", .str "HR"), ("timestamp", .int 1), ("bpm", .int 80),
        ("rr_interval", .list [.int 700, .int 650])]).rr_interval = .int 700
    ∧ (mkRecord [("type", .str "HR"), ("timestamp", .int 1),
        ("bpm", .int 80)]).rr_interval = .int 0 :=
  ⟨(rr_interval_normalized_to_scalar
      [("type", .str "HR"), ("timestamp", .int 1), ("bpm", .int 80),
       ("rr_interval", .list [.int 700, .int 650])]
      rfl rfl rfl).1 700 [.int 650] rfl,
   (rr_interval_normalized_to_scalar
      [("type", .str "HR"), ("timestamp", .int 1), ("bpm", .int 80)]
      rfl rfl rfl).2.2.1 rfl⟩

/-- C3: a JSON object with `type = "HR"` but `timestamp` or `bpm` missing is
classified `validationError` (a class distinct from `decodeError`), the
message is acknowledged, and nothing is persisted (the trace is exactly
`[ack]`, containing no save action). -/
theorem validation_error_acked_not_persisted
    (fs : List (String × PyVal)) (dbOk : Bool)
    (hty : isHRType (dictGet fs "type") = true)
    (hmiss : isNone (dictGet fs "timestamp") = true
      ∨ isNone (dictGet fs "bpm") = true) :
    message_callback (.val (.dict fs)) dbOk = (.validationError, [.ack])
    ∧ MsgClass.validationError ≠ MsgClass.decodeError
    ∧ ∀ r, Action.saveOk r ∉ ([Action.ack] : List Action) := by
  refine ⟨?_, fun h => MsgClass.noConfusion h, by simp⟩
  rcases hmiss with h | h <;> simp [message_callback, hty, h]

/-- Witness for C3 at the spec's example `{"type":"HR","bpm":80}`. -/
theorem validation_error_acked_not_persisted_witness :
    message_callback (.val (.dict [("type", .str "HR"), ("bpm", .int 80)]))
        true
      = (.validationError, [.ack]) :=
  (validation_error_acked_not_persisted
    [("type", .str "HR"), ("bpm", .int 80)] true rfl (Or.inl rfl)).1

/-- C4: a JSON object whose `type` field is not the string `"HR"` is
classified `ignored` — a class distinct from `validationError` and from every
success class — the message is acknowledged so it is not redelivered, and
nothing is persisted. -/
theorem non_hr_type_ignored
    (fs : List (String × PyVal)) (dbOk : Bool)
    (hty : isHRType (dictGet fs "type") = false) :
    message_callback (.val (.dict fs)) dbOk = (.ignored, [.ack])
    ∧ MsgClass.ignored ≠ MsgClass.validationError
    ∧ (∀ r, MsgClass.ignored ≠ MsgClass.saved r)
    ∧ ∀ r, Action.saveOk r ∉ ([Action.ack] : List Action) := by
  exact ⟨by simp [message_callback, hty],
    fun h => MsgClass.noConfusion h,
    fun r h => MsgClass.noConfusion h, by simp⟩

/-- Witness for C4 at an `"ACC"`-typed message. -/
theorem non_hr_type_ignored_witness :
    message_callback
        (.val (.dict [("type", .str "ACC"), ("timestamp", .int 1)])) true
      = (.ignored, [.ack]) :=
  (non_hr_type_ignored [("type", .str "ACC"), ("timestamp", .int 1)]
    true rfl).1

/-- C5 counterexample: the byte payload that is not valid UTF-8 (hence not
valid JSON) is NOT acknowledged — `decode('utf-8')` raises
`UnicodeDecodeError`, which the `except json.JSONDecodeError` branch does not
catch, so the generic handler negative-acknowledges and the message is
redelivered. -/
theorem invalid_utf8_payload_nacked :
    message_callback Payload.invalidUtf8 true = (.unicodeError, [.nack])
    ∧ Action.ack ∉ (message_callback Payload.invalidUtf8 true).2 := by
  exact ⟨rfl, by simp [message_callback]⟩

/-- C5 amended: a payload that is valid UTF-8 but not valid JSON is
classified `decodeError` and acknowledged (dropped, never redelivered, with
nothing persisted), while a payload that is not valid UTF-8 escapes the
JSON-decode-error branch and is negative-acknowledged instead. -/
theorem decode_error_ack_discipline (dbOk : Bool) :
    message_callback Payload.notJson dbOk = (.decodeError, [.ack])
    ∧ message_callback Payload.invalidUtf8 dbOk = (.unicodeError, [.nack])
    ∧ ∀ r, Action.saveOk r ∉ ([Action.ack] : List Action) :=
  ⟨rfl, rfl, by simp⟩

/-- C10: a payload that is valid JSON but not a JSON object (a bare number,
string, list, boolean or null) makes `data.get('type')` raise
`AttributeError`, which only the generic `except Exception` branch catches:
the consumer negative-acknowledges (so the channel will redeliver) and never
acknowledges. -/
theorem non_object_json_nacked (v : PyVal) (dbOk : Bool)
    (hv : isDict v = false) :
    message_callback (.val v) dbOk = (.attrError, [.nack])
    ∧ Action.ack ∉ (message_callback (.val v) dbOk).2 := by
  cases v <;> simp_all [message_callback, isDict]

/-- Witness for C10 at the bare number `5`. -/
theorem non_object_json_nacked_witness :
    message_callback (.val (.int 5)) true = (.attrError, [.nack]) :=
  (non_object_json_nacked (.int 5) true rfl).1

/-! ## Query service theorems -/

theorem int_min?_spec (l : List Int) (hl : l ≠ []) :
    ∃ a, l.min? = some a ∧ a ∈ l ∧ ∀ b ∈ l, a ≤ b := by
  haveI : Std.Antisymm (α := Int) (· ≤ ·) := ⟨fun h h2 => le_antisymm h h2⟩
  cases h : l.min? with
  | none => exact absurd (List.min?_eq_none_iff.mp h) hl
  | some a =>
    have hs := (List.min?_eq_some_iff (fun a => le_refl a)
        (fun a b => min_choice a b) (fun a b c => le_min_iff)).mp h
    exact ⟨a, rfl, hs.1, hs.2⟩

theorem int_max?_spec (l : List Int) (hl : l ≠ []) :
    ∃ a, l.max? = some a ∧ a ∈ l ∧ ∀ b ∈ l, b ≤ a := by
  haveI : Std.Antisymm (α := Int) (· ≤ ·) := ⟨fun h h2 => le_antisymm h h2⟩
  cases h : l.max? with
  | none => exact absurd (List.max?_eq_none_iff.mp h) hl
  | some a =>
    have hs := (List.max?_eq_some_iff (fun a => le_refl a)
        (fun a b => max_choice a b) (fun a b c => max_le_iff)).mp h
    exact ⟨a, rfl, hs.1, hs.2⟩

theorem pyRound1_zero : pyRound1 0 = 0 := by
  norm_num [pyRound1, roundHalfEven]

/-- C6: `list` with a positive integer window of `n` minutes returns exactly
the readings with `created_at ≥ now - 60 * n` seconds, a non-numeric window
value is ignored (same result as supplying no window at all), and in every
case the result is sorted descending by `created_at`. -/
theorem list_window_filter (store : List Reading) (now : Int) (n : Int)
    (_hn : 0 < n) :
    (∀ x : Reading, x ∈ get_queryset store now (.numeric n) ↔
        x ∈ store ∧ now - 60 * n ≤ x.created_at)
    ∧ (∀ p : MinutesParam, List.Sorted createdDesc (get_queryset store now p))
    ∧ get_queryset store now .nonNumeric = get_queryset store now .absent := by
  refine ⟨fun x => ?_, fun p => ?_, rfl⟩
  · simp [get_queryset, List.mem_insertionSort, List.mem_filter]
  · cases p <;> exact List.sorted_insertionSort _ _

/-- Witness for C6: with `now = 1000` s and a 5-minute window, a reading from
10 minutes ago (`created_at = 400`) is excluded and one from 1 minute ago
(`created_at = 940`) is included. -/
theorem list_window_filter_witness :
    (⟨2, 0, 110, 600, Option.none, 940⟩ : Reading) ∈
        get_queryset [⟨1, 0, 100, 500, Option.none, 400⟩,
          ⟨2, 0, 110, 600, Option.none, 940⟩] 1000 (.numeric 5)
    ∧ (⟨1, 0, 100, 500, Option.none, 400⟩ : Reading) ∉
        get_queryset [⟨1, 0, 100, 500, Option.none, 400⟩,
          ⟨2, 0, 110, 600, Option.none, 940⟩] 1000 (.numeric 5) := by
  constructor
  · exact ((list_window_filter
      [⟨1, 0, 100, 500, Option.none, 400⟩, ⟨2, 0, 110, 600, Option.none, 940⟩]
      1000 5 (by norm_num)).1 _).mpr (by decide)
  · intro hmem
    exact absurd (((list_window_filter
      [⟨1, 0, 100, 500, Option.none, 400⟩, ⟨2, 0, 110, 600, Option.none, 940⟩]
      1000 5 (by norm_num)).1 _).mp hmem).2 (by decide)

/-- C7: `stats` aggregates over the same window-filtered set as `list`
(both go through `get_queryset`): the count is the size of that set; on an
empty set every other field is null (not zero); on a non-empty set the two
averages are the means rounded to one decimal place, `min_bpm`/`max_bpm` are
the least/greatest `bpm` of the set, and `time_range_start`/`time_range_end`
are the earliest/latest `created_at` of the set. -/
theorem stats_window_aggregates (store : List Reading) (now : Int)
    (p : MinutesParam) :
    (stats store now p).count = (get_queryset store now p).length
    ∧ (get_queryset store now p = [] →
        stats store now p
          = ⟨0, Option.none, Option.none, Option.none, Option.none,
              Option.none, Option.none⟩)
    ∧ (get_queryset store now p ≠ [] →
        (stats store now p).avg_bpm
            = some (pyRound1
                (((get_queryset store now p).map fun r => (r.bpm : ℚ)).sum
                  / (get_queryset store now p).length))
        ∧ (stats store now p).avg_rr_interval
            = some (pyRound1
                (((get_queryset store now p).map
                    fun r => (r.rr_interval : ℚ)).sum
                  / (get_queryset store now p).length))
        ∧ (∃ r ∈ get_queryset store now p,
            (stats store now p).min_bpm = some r.bpm
            ∧ ∀ y ∈ get_queryset store now p, r.bpm ≤ y.bpm)
        ∧ (∃ r ∈ get_queryset store now p,
            (stats store now p).max_bpm = some r.bpm
            ∧ ∀ y ∈ get_queryset store now p, y.bpm ≤ r.bpm)
        ∧ (∃ r ∈ get_queryset store now p,
            (stats store now p).time_range_start = some r.created_at
            ∧ ∀ y ∈ get_queryset store now p, r.created_at ≤ y.created_at)
        ∧ (∃ r ∈ get_queryset store now p,
            (stats store now p).time_range_end = some r.created_at
            ∧ ∀ y ∈ get_queryset store now p, y.created_at ≤ r.created_at)) := by
  refine ⟨by simp [stats, aggregate], fun h => ?_, fun h => ?_⟩
  · simp [stats, aggregate, h]
  · have hne : (get_queryset store now p).isEmpty = false := by
      simpa [List.isEmpty_iff] using h
    refine ⟨?_, ?_, ?_, ?_, ?_, ?_⟩
    · simp only [stats, aggregate, hne, Bool.false_eq_true, if_false]
      split
      · next heq => rw [heq, pyRound1_zero]
      · rfl
    · simp only [stats, aggregate, hne, Bool.false_eq_true, if_false]
      split
      · next heq => rw [heq, pyRound1_zero]
      · rfl
    · obtain ⟨a, ha, hmem, hle⟩ := int_min?_spec
        ((get_queryset store now p).map Reading.bpm)
        (by simpa [List.map_eq_nil_iff] using h)
      obtain ⟨r, hr, hrb⟩ := List.mem_map.mp hmem
      refine ⟨r, hr, ?_, fun y hy => ?_⟩
      · simp only [stats, aggregate, hrb]
        exact ha
      · exact hrb ▸ hle y.bpm (List.mem_map.mpr ⟨y, hy, rfl⟩)
    · obtain ⟨a, ha, hmem, hle⟩ := int_max?_spec
        ((get_queryset store now p).map Reading.bpm)
        (by simpa [List.map_eq_nil_iff] using h)
      obtain ⟨r, hr, hrb⟩ := List.mem_map.mp hmem
      refine ⟨r, hr, ?_, fun y hy => ?_⟩
      · simp only [stats, aggregate, hrb]
        exact ha
      · exact hrb ▸ hle y.bpm (List.mem_map.mpr ⟨y, hy, rfl⟩)
    · obtain ⟨a, ha, hmem, hle⟩ := int_min?_spec
        ((get_queryset store now p).map Reading.created_at)
        (by simpa [List.map_eq_nil_iff] using h)
      obtain ⟨r, hr, hrb⟩ := List.mem_map.mp hmem
      refine ⟨r, hr, ?_, fun y hy => ?_⟩
      · simp only [stats, aggregate, hrb]
        exact ha
      · exact hrb ▸ hle y.created_at (List.mem_map.mpr ⟨y, hy, rfl⟩)
    · obtain ⟨a, ha, hmem, hle⟩ := int_max?_spec
        ((get_queryset store now p).map Reading.created_at)
        (by simpa [List.map_eq_nil_iff] using h)
      obtain ⟨r, hr, hrb⟩ := List.mem_map.mp hmem
      refine ⟨r, hr, ?_, fun y hy => ?_⟩
      · simp only [stats, aggregate, hrb]
        exact ha
      · exact hrb ▸ hle y.created_at (List.mem_map.mpr ⟨y, hy, rfl⟩)

/-- Witness for C7: on an empty store `stats` returns `count = 0` and every
other field null. -/
theorem stats_window_aggregates_witness :
    stats [] 0 .absent
      = ⟨0, Option.none, Option.none, Option.none, Option.none,
          Option.none, Option.none⟩ :=
  (stats_window_aggregates [] 0 .absent).2.1 rfl

/-- C8: `latest` returns a reading of maximal `created_at` when the store is
non-empty, and an explicit HTTP 404 result on an empty store. -/
theorem latest_returns_max (store : List Reading) :
    (store = [] → latest store = .notFound404)
    ∧ (store ≠ [] → ∃ r, latest store = .found r ∧ r ∈ store ∧
        ∀ x ∈ store, x.created_at ≤ r.created_at) := by
  constructor
  · intro h; subst h; rfl
  · intro h
    have hperm := List.perm_insertionSort createdDesc store
    have hsorted := List.sorted_insertionSort createdDesc store
    rcases hs : List.insertionSort createdDesc store with _ | ⟨a, t⟩
    · rw [hs] at hperm
      exact absurd hperm.symm.eq_nil h
    · rw [hs] at hperm hsorted
      refine ⟨a, ?_, hperm.subset (List.mem_cons_self a t), fun x hx => ?_⟩
      · simp [latest, hs]
      · rcases List.mem_cons.mp (hperm.mem_iff.mpr hx) with hxa | hxt
        · exact hxa ▸ le_refl _
        · exact (List.pairwise_cons.mp hsorted).1 x hxt

/-- Witness for C8: on a two-element store `latest` returns the most recent
reading. -/
theorem latest_returns_max_witness :
    ∃ r : Reading,
      latest [⟨1, 0, 100, 500, Option.none, 5⟩,
        ⟨2, 0, 110, 600, Option.none, 9⟩] = .found r
      ∧ r ∈ [(⟨1, 0, 100, 500, Option.none, 5⟩ : Reading),
          ⟨2, 0, 110, 600, Option.none, 9⟩]
      ∧ ∀ x ∈ [(⟨1, 0, 100, 500, Option.none, 5⟩ : Reading),
          ⟨2, 0, 110, 600, Option.none, 9⟩], x.created_at ≤ r.created_at :=
  (latest_returns_max
    [⟨1, 0, 100, 500, Option.none, 5⟩, ⟨2, 0, 110, 600, Option.none, 9⟩]).2
    (by decide)

/-! ## Test-mode producer theorems -/

theorem randint_mem_range (a b s : Nat) (hab : a ≤ b) :
    a ≤ randint a b s ∧ randint a b s ≤ b := by
  unfold randint
  have hpos : 0 < b - a + 1 := Nat.succ_pos _
  have := Nat.mod_lt s hpos
  omega

theorem randint_surjective (a b v : Nat) (ha : a ≤ v) (hb : v ≤ b) :
    ∃ s, randint a b s = v := by
  refine ⟨v - a, ?_⟩
  unfold randint
  rw [Nat.mod_eq_of_lt (by omega)]
  omega

theorem uniformQ_mem_Icc (a b : ℚ) (s : Nat) (hab : a ≤ b) :
    a ≤ uniformQ a b s ∧ uniformQ a b s ≤ b := by
  unfold uniformQ
  have h0 : (0 : ℚ) ≤ ((s % 1000 : ℕ) : ℚ) := Nat.cast_nonneg _
  have h1 : ((s % 1000 : ℕ) : ℚ) ≤ 1000 := by
    have := Nat.mod_lt s (show 0 < 1000 by norm_num)
    exact_mod_cast this.le
  constructor
  · nlinarith
  · nlinarith

/-- C9: every event synthesized in test mode carries `type = "HR"`, a
timestamp equal to the wall-clock reading (ns) at its generation, a `bpm`
drawn from the integer range `[100, 120]` (every value of which is
attainable), an `rr_interval` drawn from the integer range `[500, 900]`
(every value attainable), and a null `energy`; and the sleep separating it
from the next emission lies in `[0.05, 0.2]` seconds. -/
theorem test_mode_event_shape (k : Nat) (clock : Nat → Int)
    (seeds : Nat → Nat × Nat × Nat) (i : Nat) (hi : i < k) :
    (∃ ev sleep,
      (run_test_mode k clock seeds)[i]? = some (ev, sleep)
      ∧ ev.type = "HR"
      ∧ ev.timestamp = clock i
      ∧ 100 ≤ ev.bpm ∧ ev.bpm ≤ 120
      ∧ 500 ≤ ev.rr_interval ∧ ev.rr_interval ≤ 900
      ∧ ev.energy = Option.none
      ∧ 1 / 20 ≤ sleep ∧ sleep ≤ 1 / 5)
    ∧ (∀ v, 100 ≤ v → v ≤ 120 → ∃ s, randint 100 120 s = v)
    ∧ (∀ v, 500 ≤ v → v ≤ 900 → ∃ s, randint 500 900 s = v) := by
  refine ⟨?_, fun v h1 h2 => randint_surjective 100 120 v h1 h2,
    fun v h1 h2 => randint_surjective 500 900 v h1 h2⟩
  refine ⟨generate_random_hr_data (clock i) (seeds i).1 (seeds i).2.1,
    uniformQ (1 / 20) (1 / 5) (seeds i).2.2, ?_, rfl, rfl, ?_, ?_, ?_, ?_,
    rfl, ?_, ?_⟩
  · rw [run_test_mode, List.getElem?_map, List.getElem?_range hi]
    rfl
  · exact (randint_mem_range 100 120 (seeds i).1 (by norm_num)).1
  · exact (randint_mem_range 100 120 (seeds i).1 (by norm_num)).2
  · exact (randint_mem_range 500 900 (seeds i).2.1 (by norm_num)).1
  · exact (randint_mem_range 500 900 (seeds i).2.1 (by norm_num)).2
  · exact (uniformQ_mem_Icc (1 / 20) (1 / 5) (seeds i).2.2 (by norm_num)).1
  · exact (uniformQ_mem_Icc (1 / 20) (1 / 5) (seeds i).2.2 (by norm_num)).2

/-- Witness for C9 at a one-iteration run with zero seeds and clock 0. -/
theorem test_mode_event_shape_witness :
    ∃ ev sleep,
      (run_test_mode 1 (fun _ => 0) (fun _ => (0, 0, 0)))[0]? = some (ev, sleep)
      ∧ ev.type = "HR"
      ∧ ev.timestamp = (fun _ : Nat => (0 : Int)) 0
      ∧ 100 ≤ ev.bpm ∧ ev.bpm ≤ 120
      ∧ 500 ≤ ev.rr_interval ∧ ev.rr_interval ≤ 900
      ∧ ev.energy = Option.none
      ∧ 1 / 20 ≤ sleep ∧ sleep ≤ 1 / 5 :=
  (test_mode_event_shape 1 (fun _ => 0) (fun _ => (0, 0, 0)) 0
    (by norm_num)).1

end PolarH10
